import Mathlib

/-!
Shallow embedding of the claim-flow logic of `src/App.tsx` (EmpeerDen NFT drop
front end). The authored logic is: a price computation `getPrice`, a quantity
stepper (decrement / increment), a manual quantity input handler, a claim
transaction builder, and two transaction callbacks. The quantity state is a
JavaScript number that always holds an integral value or NaN in this program
(it is only ever produced by `useState(1)`, `Math.max`, `+ 1`, `- 1`, and
`parseInt`), so JavaScript numbers are modelled by `JSNum` below: an integer
value, or NaN. JavaScript numbers are IEEE-754 doubles, whose integral
values carry a 53-bit significand: every arithmetic operation and every
numeric parse rounds its exact mathematical result to the nearest
representable double, ties to the even significand. `jsRound` models that
rounding on integer results (it is the identity up to 2^53) and is applied
wherever the source performs arithmetic or parses a number. Overflow of the
finite double range (about 1.8e308) is beyond every input considered here.
-/

namespace EmpeerDen

/-- Model of the JavaScript numbers reachable in the quantity state and the
price computation: a double holding the integer value given, or NaN. -/
inductive JSNum where
  | nan : JSNum
  | int : Int → JSNum
deriving DecidableEq

/-- Fuel-indexed binary length: number of bits of `n` (0 for 0) once the fuel
is at least `n`. Structural in the fuel so that the kernel evaluates it. -/
def bitLenAux : Nat → Nat → Nat
  | 0, _ => 0
  | fuel + 1, n => if n = 0 then 0 else bitLenAux fuel (n / 2) + 1

/-- Number of binary digits of `n` (0 for 0). -/
def bitLen (n : Nat) : Nat :=
  bitLenAux n n

/-- Rounds a natural number to the nearest IEEE-754 double value:
numbers of at most 53 bits are exact, longer numbers round to the nearest
multiple of one unit in the last place, ties to the even significand. -/
def roundNatEven (m : Nat) : Nat :=
  let k := if bitLen m ≤ 53 then 0 else bitLen m - 53
  if k = 0 then m
  else
    let q := m / 2 ^ k
    let r := m % 2 ^ k
    let half := 2 ^ (k - 1)
    if r < half then q * 2 ^ k
    else if half < r then (q + 1) * 2 ^ k
    else if q % 2 = 0 then q * 2 ^ k else (q + 1) * 2 ^ k

/-- Rounds an integer to the nearest IEEE-754 double value (the rounding is
symmetric in the sign). This is the correct rounding that JavaScript applies
to the exact result of every arithmetic operation on doubles. -/
def jsRound (n : Int) : Int :=
  if n < 0 then -(roundNatEven n.natAbs : Int) else (roundNatEven n.natAbs : Int)

/-- JavaScript addition on this program's reachable values: NaN propagates,
integral doubles add exactly and the result rounds to double precision. -/
def JSNum.add : JSNum → JSNum → JSNum
  | .int a, .int b => .int (jsRound (a + b))
  | _, _ => .nan

/-- JavaScript subtraction: NaN propagates, the exact difference rounds to
double precision. -/
def JSNum.sub : JSNum → JSNum → JSNum
  | .int a, .int b => .int (jsRound (a - b))
  | _, _ => .nan

/-- JavaScript multiplication: NaN propagates (in particular NaN * 0 is NaN),
the exact product rounds to double precision. -/
def JSNum.mul : JSNum → JSNum → JSNum
  | .int a, .int b => .int (jsRound (a * b))
  | _, _ => .nan

/-- Model of JavaScript `Math.max`: NaN if either argument is NaN, otherwise
the larger integer. -/
def jsMax : JSNum → JSNum → JSNum
  | .int a, .int b => .int (max a b)
  | _, _ => .nan

/-- Accumulating decimal-digit scan: consumes the longest prefix of decimal
digit characters, folding them into `acc`, and stops at the first non-digit.
This is the digit-consuming core of ECMAScript `parseInt`. -/
def parseDigitsAux : List Char → Nat → Nat
  | [], acc => acc
  | c :: cs, acc =>
    if c.isDigit then parseDigitsAux cs (acc * 10 + (c.toNat - 48)) else acc

/-- Model of ECMAScript `parseInt(string)` in its base-10 fragment: skip
leading whitespace, accept one optional sign, then the longest prefix of
decimal digits; NaN when no digit follows. (The hexadecimal `0x` prefix case
of `parseInt` cannot arise from this program's inputs, which are the decimal
`toString` of a bigint and the value of a `number`-typed input element.)
The mathematical integer denoted by the digits is rounded to the nearest
double, as the ECMAScript specification prescribes, so 16-digit and longer
inputs can lose precision. -/
def parseIntChars : List Char → JSNum
  | [] => JSNum.nan
  | c :: cs =>
    if c = '-' then
      match cs with
      | [] => JSNum.nan
      | d :: _ =>
        if d.isDigit then JSNum.int (-(roundNatEven (parseDigitsAux cs 0) : Int))
        else JSNum.nan
    else if c = '+' then
      match cs with
      | [] => JSNum.nan
      | d :: _ =>
        if d.isDigit then JSNum.int (roundNatEven (parseDigitsAux cs 0))
        else JSNum.nan
    else if c.isDigit then JSNum.int (roundNatEven (parseDigitsAux (c :: cs) 0))
    else JSNum.nan

/-- Model of ECMAScript `parseInt(string)` on a string: whitespace skipping
followed by the sign-and-digits scan above. -/
def parseIntJS (s : String) : JSNum :=
  parseIntChars (s.data.dropWhile Char.isWhitespace)

/-- Fuel-indexed little-endian decimal digit list of a natural number; with
fuel at least the digit count it yields the digits of `n`, least significant
first (empty for 0). Structural in the fuel so that the kernel evaluates it. -/
def natDigitsRevAux : Nat → Nat → List Char
  | 0, _ => []
  | fuel + 1, n =>
    if n = 0 then [] else Nat.digitChar (n % 10) :: natDigitsRevAux fuel (n / 10)

/-- Little-endian decimal digits of `n` (empty for 0). -/
def natDigitsRev (n : Nat) : List Char :=
  natDigitsRevAux n n

/-- Model of JavaScript `BigInt.prototype.toString` (and `Number` integer
`toString`) for non-negative values: the usual decimal representation. -/
def bigIntToString (n : Nat) : String :=
  if n = 0 then "0" else String.mk (natDigitsRev n).reverse

/-- Model of JavaScript `BigInt(x)` on this program's number values: an
integer converts exactly, NaN throws a `RangeError`. -/
def bigIntOfJSNum : JSNum → Except String Int
  | .nan => .error "RangeError: NaN cannot be converted to a BigInt"
  | .int n => .ok n

/-- Model of the JavaScript string `||` idiom `s || d`: `d` when the left
side is absent (`undefined`) or the empty string (the only falsy string). -/
def jsStringOr (s : Option String) (d : String) : String :=
  match s with
  | none => d
  | some s => if s = "" then d else s

/-- Removes the trailing `'0'` characters of a string (the fraction-trimming
step of the external decimal formatter). -/
def stripTrailingZeros (s : String) : String :=
  String.mk (s.data.reverse.dropWhile (fun c => c == '0')).reverse

/-- Pads a string on the left with `'0'` up to length `len` (the `padStart`
step of the external decimal formatter). -/
def padStartZeros (s : String) (len : Nat) : String :=
  String.mk (List.replicate (len - s.data.length) '0' ++ s.data)

/-- Model of thirdweb's `toEther` (viem-style `formatUnits(wei, 18)`): the
wei amount split by 10^18 into an integer part and an 18-digit zero-padded
fractional part with trailing zeros trimmed, dropping the dot when the
fraction is zero. -/
def toEther (wei : Int) : String :=
  let n := wei.natAbs
  let ipart := n / 10 ^ 18
  let fpart := n % 10 ^ 18
  let fracStr := stripTrailingZeros (padStartZeros (bigIntToString fpart) 18)
  (if wei < 0 then "-" else "")
    ++ bigIntToString ipart
    ++ (if fracStr = "" then "" else "." ++ fracStr)

/-- The active claim condition as read from the contract; the code guards
`pricePerToken` with optional chaining, so it is modelled as optional. The
on-chain price is a uint256 in wei, hence a natural number. -/
structure ClaimCondition where
  pricePerToken : Option Nat
deriving DecidableEq

/-- Embedding of `getPrice` (App.tsx lines 29-32):
`const total = quantity * parseInt(claimCondition?.pricePerToken?.toString() || "0")`
then `return toEther(BigInt(total))`. The `Except` carries the exception a
`BigInt(NaN)` conversion would throw. -/
def getPrice (claimCondition : Option ClaimCondition) (quantity : JSNum) :
    Except String String :=
  let priceStr :=
    jsStringOr (claimCondition.bind fun c => c.pricePerToken.map bigIntToString) "0"
  let total := quantity.mul (parseIntJS priceStr)
  (bigIntOfJSNum total).map toEther

/-- Embedding of the decrement button handler (App.tsx line 78):
`setQuantity(Math.max(1, quantity - 1))`. -/
def decrement (quantity : JSNum) : JSNum :=
  jsMax (.int 1) (quantity.sub (.int 1))

/-- Embedding of the increment button handler (App.tsx line 88):
`setQuantity(quantity + 1)`. -/
def increment (quantity : JSNum) : JSNum :=
  quantity.add (.int 1)

/-- Embedding of the manual quantity input handler (App.tsx line 83):
`setQuantity(parseInt(e.target.value))`. -/
def inputOnChange (value : String) : JSNum :=
  parseIntJS value

/-- Opaque handle to the drop contract (client, chain and address); the claim
transaction passes it through unchanged. -/
structure Contract where
  address : String
deriving DecidableEq

/-- A connected wallet account, exposing its address. -/
structure Account where
  address : String
deriving DecidableEq

/-- The argument record of a `claimTo` mint transaction. -/
structure ClaimToParams where
  contract : Contract
  toAddr : String
  quantity : Int
deriving DecidableEq

/-- Embedding of the `transaction` prop (App.tsx lines 93-97): one call of
`claimTo({contract, to: account?.address || "", quantity: BigInt(quantity)})`.
The `Except` carries the exception `BigInt(quantity)` throws on NaN. -/
def claimTransaction (account : Option Account) (quantity : JSNum)
    (contract : Contract) : Except String ClaimToParams := do
  let q ← bigIntOfJSNum quantity
  pure { contract := contract
         toAddr := jsStringOr (account.map Account.address) ""
         quantity := q }

/-- UI state touched by the transaction callbacks: the quantity state and the
list of alert messages shown so far, in order. -/
structure UIState where
  quantity : JSNum
  alerts : List String
deriving DecidableEq

/-- Embedding of the `onTransactionConfirmed` callback (App.tsx lines 98-101):
`alert("NFT Claimed!"); setQuantity(1)`. -/
def onTransactionConfirmed (s : UIState) : UIState :=
  { quantity := .int 1, alerts := s.alerts ++ ["NFT Claimed!"] }

/-- Embedding of the `onError` callback (App.tsx lines 102-104): `alert(e)`
with `e` the raw error's display string; the quantity state is not touched. -/
def onError (e : String) (s : UIState) : UIState :=
  { s with alerts := s.alerts ++ [e] }

example : parseIntJS "" = JSNum.nan := by rfl
example : parseIntJS "abc" = JSNum.nan := by rfl
example : parseIntJS "-5" = JSNum.int (-5) := by rfl
example : parseIntJS " 12ab" = JSNum.int 12 := by rfl
example : bigIntToString 301 = "301" := by rfl
example : toEther 3000000000000000000 = "3" := by rfl
example : toEther 1500000000000000000 = "1.5" := by rfl
example : toEther 0 = "0" := by rfl
example : getPrice (some ⟨some (10 ^ 18)⟩) (.int 3) = .ok "3" := by rfl

/-! Helper lemmas: decimal rendering round-trips through `parseIntJS`. -/

/-- NaN absorbs multiplication on the left (in particular NaN times zero). -/
lemma JSNum.nan_mul (x : JSNum) : JSNum.mul JSNum.nan x = JSNum.nan := by
  cases x <;> rfl

/-- Binary length is bounded by any exponent dominating the value. -/
lemma bitLenAux_le : ∀ (n fuel k : Nat), n ≤ fuel → n < 2 ^ k →
    bitLenAux fuel n ≤ k := by
  intro n
  induction n using Nat.strong_induction_on with
  | _ n ih =>
    intro fuel k hf hk
    match fuel with
    | 0 =>
      simp [bitLenAux]
    | fuel + 1 =>
      rw [bitLenAux]
      by_cases hn : n = 0
      · simp [hn]
      · rw [if_neg hn]
        match k with
        | 0 =>
          norm_num at hk
          omega
        | k + 1 =>
          have h2 : n / 2 < 2 ^ k := by
            have hpow : (2 : Nat) ^ (k + 1) = 2 * 2 ^ k := by ring
            omega
          have hrec := ih (n / 2)
            (Nat.div_lt_self (Nat.pos_of_ne_zero hn) (by norm_num)) fuel k
            (by omega) h2
          omega

/-- Fifty-three-bit values have binary length at most 53. -/
lemma bitLen_le {n k : Nat} (h : n < 2 ^ k) : bitLen n ≤ k :=
  bitLenAux_le n n k le_rfl h

/-- Double rounding is the identity on the exact integer range, up to and
including 2^53. -/
lemma roundNatEven_eq_self {m : Nat} (h : m ≤ 2 ^ 53) : roundNatEven m = m := by
  rcases lt_or_eq_of_le h with hlt | heq
  · have hb : bitLen m ≤ 53 := bitLen_le hlt
    simp [roundNatEven, hb]
  · subst heq
    decide

/-- Double rounding is the identity on integers of magnitude at most 2^53. -/
lemma jsRound_eq_self {n : Int} (h : n.natAbs ≤ 2 ^ 53) : jsRound n = n := by
  have hr : roundNatEven n.natAbs = n.natAbs := roundNatEven_eq_self h
  rw [jsRound, hr]
  split <;> omega

/-! The claims. -/

/-- C2: with the claim condition absent, or present without a price field,
`getPrice` treats the unit price as zero and returns "0" for every integer
quantity. -/
theorem claim_C2_price_unloaded_zero :
    ∀ q : Int, getPrice none (JSNum.int q) = Except.ok "0" ∧
      getPrice (some ⟨none⟩) (JSNum.int q) = Except.ok "0" := by
  intro q
  have h1 : getPrice none (JSNum.int q)
      = Except.ok (toEther (jsRound (q * 0))) := rfl
  have h2 : getPrice (some ⟨none⟩) (JSNum.int q)
      = Except.ok (toEther (jsRound (q * 0))) := rfl
  rw [h1, h2, mul_zero]
  exact ⟨rfl, rfl⟩

/-- C3: one claim invocation builds one mint transaction whose quantity is
the current quantity state and whose recipient is the connected account's
address, or the empty string when no account is connected. -/
theorem claim_C3_claim_transaction_args :
    ∀ (q : Int) (a : Account) (c : Contract),
      claimTransaction (some a) (JSNum.int q) c
        = Except.ok ⟨c, a.address, q⟩ ∧
      claimTransaction none (JSNum.int q) c = Except.ok ⟨c, "", q⟩ := by
  intro q a c
  constructor
  · have h : claimTransaction (some a) (JSNum.int q) c
        = Except.ok ⟨c, jsStringOr (some a.address) "", q⟩ := rfl
    rw [h]
    simp only [jsStringOr]
    by_cases he : a.address = ""
    · simp [he]
    · rw [if_neg he]
  · rfl

/-- C4 as stated is false of the program at the reachable quantity
q = 2^53 + 2 (typeable through the unvalidated input): JS computes
(2^53 + 2) - 1 with ties-to-even rounding as 2^53, not max(1, q - 1)
= 2^53 + 1. -/
theorem claim_C4_counterexample :
    decrement (JSNum.int (2 ^ 53 + 2)) = JSNum.int (2 ^ 53) ∧
    (2 ^ 53 : Int) ≠ max 1 (2 ^ 53 + 2 - 1) :=
  ⟨by decide, by decide⟩

/-- C4 amended: the decrement control maps quantity q to
max(1, fl(q - 1)) where fl is double rounding; on the exact double range
1 ≤ q ≤ 2^53 this is max(1, q - 1); from 1 it stays at 1 and from 5 it
reaches 4. -/
theorem claim_C4_decrement_clamps :
    (∀ q : Int, decrement (JSNum.int q) = JSNum.int (max 1 (jsRound (q - 1)))) ∧
    (∀ q : Int, 1 ≤ q → q ≤ 2 ^ 53 →
      decrement (JSNum.int q) = JSNum.int (max 1 (q - 1))) ∧
    decrement (JSNum.int 1) = JSNum.int 1 ∧
    decrement (JSNum.int 5) = JSNum.int 4 := by
  refine ⟨fun q => rfl, fun q h1 h2 => ?_, by decide, by decide⟩
  have hI53 : (2 : Int) ^ 53 = 9007199254740992 := by norm_num
  have hN53 : (2 : Nat) ^ 53 = 9007199254740992 := by norm_num
  have hr : jsRound (q - 1) = q - 1 := jsRound_eq_self (by omega)
  show JSNum.int (max 1 (jsRound (q - 1))) = JSNum.int (max 1 (q - 1))
  rw [hr]

/-- Witness for C4's exact-range clause at q = 5. -/
theorem claim_C4_decrement_clamps_witness :
    decrement (JSNum.int 5) = JSNum.int (max 1 (5 - 1)) :=
  claim_C4_decrement_clamps.2.1 5 (by norm_num) (by norm_num)

/-- C5 as stated is false of the program at the reachable quantity q = 2^53
(typeable through the unvalidated input): JS evaluates 2^53 + 1 to 2^53
(the increment saturates at the double limit), not to q + 1. -/
theorem claim_C5_counterexample :
    increment (JSNum.int (2 ^ 53)) = JSNum.int (2 ^ 53) ∧
    ((2 : Int) ^ 53) ≠ 2 ^ 53 + 1 :=
  ⟨by decide, by decide⟩

/-- C5 amended: the increment control maps quantity q to fl(q + 1), which is
q + 1 whenever q + 1 is within the exact double range — no supply-derived
ceiling exists: n increments from 1 land on 1 + n for every n up to
2^53 - 1, also when 1 + n exceeds the remaining mintable supply
totalSupply - claimedSupply (the handler never consults the supplies); at
the double limit the increment saturates instead. -/
theorem claim_C5_increment_unbounded :
    (∀ q : Int, increment (JSNum.int q) = JSNum.int (jsRound (q + 1))) ∧
    (∀ q : Int, (q + 1).natAbs ≤ 2 ^ 53 →
      increment (JSNum.int q) = JSNum.int (q + 1)) ∧
    (∀ n : Nat, n ≤ 2 ^ 53 - 1 →
      increment^[n] (JSNum.int 1) = JSNum.int (1 + n)) ∧
    (∀ (n : Nat) (totalSupply claimedSupply : Int), n ≤ 2 ^ 53 - 1 →
      (1 + n : Int) > totalSupply - claimedSupply →
        increment^[n] (JSNum.int 1) = JSNum.int (1 + n)) := by
  have hN53 : (2 : Nat) ^ 53 = 9007199254740992 := by norm_num
  have hgen : ∀ n : Nat, n ≤ 2 ^ 53 - 1 →
      increment^[n] (JSNum.int 1) = JSNum.int (1 + n) := by
    intro n
    induction n with
    | zero =>
      intro _
      simp
    | succ m ihm =>
      intro hm
      rw [Function.iterate_succ_apply', ihm (by omega)]
      have hb : jsRound (1 + (m : Int) + 1) = 1 + (m : Int) + 1 :=
        jsRound_eq_self (by omega)
      show JSNum.int (jsRound (1 + (m : Int) + 1))
          = JSNum.int (1 + ((m + 1 : Nat) : Int))
      rw [hb]
      have hc : (1 : Int) + (m : Int) + 1 = 1 + ((m + 1 : Nat) : Int) := by
        push_cast
        ring
      rw [hc]
  refine ⟨fun q => rfl, fun q hq => ?_, hgen, fun n _ _ hn _ => hgen n hn⟩
  show JSNum.int (jsRound (q + 1)) = JSNum.int (q + 1)
  rw [jsRound_eq_self hq]

/-- Witness for C5: ten increments from 1 reach 11, which exceeds a
remaining supply of 5 - 0. -/
theorem claim_C5_increment_unbounded_witness :
    increment^[10] (JSNum.int 1) = JSNum.int (1 + (10 : Nat)) :=
  claim_C5_increment_unbounded.2.2.2 10 5 0 (by norm_num) (by norm_num)

/-- C6: the confirmation callback fires the success alert exactly once and
resets the quantity state to 1, whatever the quantity was at submission. -/
theorem claim_C6_confirm_resets_and_notifies :
    ∀ s : UIState, onTransactionConfirmed s
      = { quantity := JSNum.int 1, alerts := s.alerts ++ ["NFT Claimed!"] } :=
  fun _ => rfl

/-- C7: the error callback leaves the quantity state unchanged and appends
exactly one alert carrying the raw error verbatim; the success alert and the
quantity reset of the confirmation path do not run. -/
theorem claim_C7_error_preserves_state :
    ∀ (s : UIState) (e : String),
      onError e s = { quantity := s.quantity, alerts := s.alerts ++ [e] } :=
  fun _ _ => rfl

/-- C8 as stated is false of the program on 16-digit inputs: typing
"9007199254740993" (2^53 + 1) stores the double rounding 9007199254740992,
not the integer parse of the string. -/
theorem claim_C8_counterexample :
    inputOnChange "9007199254740993" ≠ JSNum.int 9007199254740993 := by
  decide

/-- C8 amended: the manual input stores the integer parse of the typed
string rounded to the nearest double (exact up to 2^53) with no validation:
non-numeric input yields NaN, a negative numeral stays negative, and neither
the floor of 1 nor any supply ceiling is applied. -/
theorem claim_C8_input_unvalidated :
    (∀ s : String, inputOnChange s = parseIntJS s) ∧
    inputOnChange "abc" = JSNum.nan ∧
    inputOnChange "-5" = JSNum.int (-5) ∧
    inputOnChange "0" = JSNum.int 0 ∧
    inputOnChange "9007199254740993" = JSNum.int 9007199254740992 :=
  ⟨fun _ => rfl, by decide, by decide, by decide, by decide⟩

/-- C9 as stated is false of the program at the reachable quantity q = 2^53:
JS increment sticks at 2^53 (2^53 + 1 rounds back ties-to-even) and the
following decrement lands on 2^53 - 1, not back on q. -/
theorem claim_C9_counterexample :
    decrement (increment (JSNum.int (2 ^ 53))) = JSNum.int (2 ^ 53 - 1) ∧
    ((2 : Int) ^ 53 - 1) ≠ 2 ^ 53 :=
  ⟨by decide, by decide⟩

/-- C9 amended: within the exact double range, increment then decrement
returns any quantity 1 ≤ q ≤ 2^53 - 1 to q, and decrement then increment
returns any 2 ≤ q ≤ 2^53 to q; at the double limit the round trip loses one
(see the counterexample at q = 2^53). -/
theorem claim_C9_stepper_inverses :
    (∀ q : Int, 1 ≤ q → q ≤ 2 ^ 53 - 1 →
      decrement (increment (JSNum.int q)) = JSNum.int q) ∧
    (∀ q : Int, 2 ≤ q → q ≤ 2 ^ 53 →
      increment (decrement (JSNum.int q)) = JSNum.int q) := by
  have hI53 : (2 : Int) ^ 53 = 9007199254740992 := by norm_num
  have hN53 : (2 : Nat) ^ 53 = 9007199254740992 := by norm_num
  constructor
  · intro q h1 h2
    have hq1 : jsRound (q + 1) = q + 1 := jsRound_eq_self (by omega)
    have hq : jsRound q = q := jsRound_eq_self (by omega)
    show JSNum.int (max 1 (jsRound (jsRound (q + 1) - 1))) = JSNum.int q
    rw [hq1, add_sub_cancel_right, hq, max_eq_right h1]
  · intro q h1 h2
    have hqm : jsRound (q - 1) = q - 1 := jsRound_eq_self (by omega)
    show JSNum.int (jsRound (max 1 (jsRound (q - 1)) + 1)) = JSNum.int q
    rw [hqm, max_eq_right (by omega : (1 : Int) ≤ q - 1), sub_add_cancel]
    rw [jsRound_eq_self (by omega)]

/-- Witness for C9 at q = 3. -/
theorem claim_C9_stepper_inverses_witness :
    decrement (increment (JSNum.int 3)) = JSNum.int 3 ∧
    increment (decrement (JSNum.int 3)) = JSNum.int 3 :=
  ⟨claim_C9_stepper_inverses.1 3 (by norm_num) (by norm_num),
   claim_C9_stepper_inverses.2 3 (by norm_num) (by norm_num)⟩

/-- C10: `getPrice` is not total on the reachable quantity states: clearing
the manual input stores NaN (parseInt of "" is NaN), and on a NaN quantity
the BigInt conversion inside `getPrice` throws instead of returning a price
string, for every state of the claim condition. -/
theorem claim_C10_getPrice_nan_error :
    inputOnChange "" = JSNum.nan ∧
    ∀ cc : Option ClaimCondition,
      getPrice cc JSNum.nan
        = Except.error "RangeError: NaN cannot be converted to a BigInt" := by
  refine ⟨rfl, fun cc => ?_⟩
  simp only [getPrice, JSNum.nan_mul]
  rfl

end EmpeerDen
